import Mathlib

/-!
Shallow embedding of `examples/pipelines/providers/google_vertexai_manifold_pipeline.py`.

External collaborators (the BigQuery vector store and the Vertex AI generative
model) are modelled as oracle functions passed to `pipe`; exceptions are
modelled with `Except String` carrying the message `str(e)`. The generator
returned by `stream_response` is modelled by the list of events its provider
iterator produces (`Except.ok t` for a chunk whose `.text` is `t`,
`Except.error e` for an exception raised during consumption), together with a
consumption function computing what iterating the generator yields.
Python float literals in the generation config are represented as exact
rationals; the adapter performs no arithmetic on them, they only pass through.
-/

namespace VertexManifold

/-- Metadata of a retrieved document: `doc.metadata` with keys
`law_name` and `law_number`. -/
structure Metadata where
  law_name : String
  law_number : String
deriving DecidableEq

/-- A document as returned by `self.store.similarity_search`. -/
structure StoreDoc where
  page_content : String
  metadata : Metadata
deriving DecidableEq

/-- A reshaped document as built by `retrieve_relevant_laws`:
`{"content": doc.page_content, "metadata": doc.metadata}`. -/
structure RelevantDoc where
  content : String
  metadata : Metadata
deriving DecidableEq

/-- One element of a multi-part message content list:
`{"type": "text", "text": ...}` or `{"type": "image_url", "image_url": {"url": ...}}`. -/
inductive ContentItem where
  | text (t : String)
  | image_url (url : String)
deriving DecidableEq

/-- The `content` field of a front-end message: a plain string or a list of
typed parts. -/
inductive MsgContent where
  | str (s : String)
  | parts (items : List ContentItem)
deriving DecidableEq

/-- A front-end chat message. -/
structure Message where
  role : String
  content : MsgContent
deriving DecidableEq

/-- A provider-native content part (`vertexai.generative_models.Part`). -/
inductive Part where
  | from_text (t : String)
  | from_image (data : String)
  | from_uri (uri : String)
deriving DecidableEq

/-- A provider-native content block (`vertexai.generative_models.Content`). -/
structure Content where
  role : String
  parts : List Part
deriving DecidableEq

/-- The four harm categories named in the source. -/
inductive HarmCategory where
  | HARM_CATEGORY_HATE_SPEECH
  | HARM_CATEGORY_DANGEROUS_CONTENT
  | HARM_CATEGORY_SEXUALLY_EXPLICIT
  | HARM_CATEGORY_HARASSMENT
deriving DecidableEq

/-- Provider harm-block thresholds. -/
inductive HarmBlockThreshold where
  | BLOCK_NONE
  | BLOCK_ONLY_HIGH
  | BLOCK_MEDIUM_AND_ABOVE
  | BLOCK_LOW_AND_ABOVE
deriving DecidableEq

/-- A safety-settings dict: harm category to threshold. -/
abbrev SafetySettings := List (HarmCategory × HarmBlockThreshold)

/-- The provider `GenerationConfig`. -/
structure GenerationConfig where
  temperature : Rat
  top_p : Rat
  top_k : Nat
  max_output_tokens : Nat
  stop_sequences : List String
deriving DecidableEq

/-- The request `body` dict; `none` models an absent key, read through
`body.get(key, default)`. -/
structure Body where
  stream : Option Bool
  title : Option Bool
  temperature : Option Rat
  top_p : Option Rat
  top_k : Option Nat
  max_tokens : Option Nat
  stop : Option (List String)
  safety_settings : Option SafetySettings
deriving DecidableEq

/-- The adapter's configuration (`Pipeline.Valves`). -/
structure Valves where
  GOOGLE_PROJECT_ID : String
  GOOGLE_CLOUD_REGION : String
  USE_PERMISSIVE_SAFETY : Bool
deriving DecidableEq

/-- Everything `pipe` hands to `model.generate_content`, together with the
model construction parameters (`model_name`, `system_instruction`). -/
structure GenRequest where
  model_name : String
  system_instruction : Option MsgContent
  contents : List Content
  generation_config : GenerationConfig
  safety_settings : Option SafetySettings
  stream : Bool
deriving DecidableEq

/-- The provider response object: iterating it produces `chunks` (each step
either yields a chunk with the given `.text`, or raises), and its `.text`
accessor either returns the full text or raises. -/
structure ProviderResponse where
  chunks : List (Except String String)
  text : Except String String

deriving instance DecidableEq for Except

/-- What `pipe` returns: a plain string, or the (unconsumed) generator made
by `stream_response`, identified by its underlying event list. -/
inductive PipeResult where
  | str (s : String)
  | stream (events : List (Except String String))
deriving DecidableEq

/-- The observable result of draining a generator: the values yielded in
order, and whether consumption ended normally or raised. -/
inductive StreamOutcome where
  | done (yielded : List String)
  | raised (yielded : List String) (msg : String)
deriving DecidableEq

/-- Prepend one yielded value to a consumption outcome. -/
def StreamOutcome.push (t : String) : StreamOutcome → StreamOutcome
  | .done ys => .done (t :: ys)
  | .raised ys e => .raised (t :: ys) e

/-- Python's `str.startswith`, computed structurally on the char lists. -/
def pyStartsWith (s p : String) : Bool :=
  p.data.isPrefixOf s.data

/-- Splitting a char list at every occurrence of `sep`. -/
def splitChars (sep : Char) : List Char → List (List Char)
  | [] => [[]]
  | c :: rest =>
      match splitChars sep rest with
      | [] => if c = sep then [[], []] else [[c]]
      | h :: t => if c = sep then [] :: h :: t else (c :: h) :: t

/-- Python's `str.split(sep)` for a one-character separator, computed
structurally on the char list. -/
def pySplit (s : String) (sep : Char) : List String :=
  (splitChars sep s.data).map String.mk

/-- Joining strings with a one-character separator (inverse of `pySplit`). -/
def joinWith (sep : Char) : List String → String
  | [] => ""
  | [x] => x
  | x :: rest => x ++ String.mk [sep] ++ joinWith sep rest

namespace Pipeline

/-- The static model catalog `self.pipelines` (id, display name). -/
def pipelines : List (String × String) :=
  [("gemini-1.5-flash-001", "Gemini 1.5 Flash"),
   ("gemini-1.5-pro-001", "Gemini 1.5 Pro"),
   ("gemini-flash-experimental", "Gemini 1.5 Flash Experimental"),
   ("gemini-pro-experimental", "Gemini 1.5 Pro Experimental")]

/-- Consumption semantics of the generator `stream_response(response)`:
`for chunk in response: if chunk.text: yield chunk.text`. An `Except.error`
event models an exception raised by the iteration (or by `.text`) at that
point, which aborts consumption. -/
def stream_response : List (Except String String) → StreamOutcome
  | [] => .done []
  | Except.error e :: _ => .raised [] e
  | Except.ok t :: rest =>
      if t = "" then stream_response rest else (stream_response rest).push t

/-- Conversion of one item of a multi-part content list inside
`build_conversation_history`. A `data:image...` URL without any comma makes
`image_url.split(",")[1]` raise an `IndexError`. -/
def convertItem : ContentItem → Except String Part
  | .text t => .ok (.from_text t)
  | .image_url image_url =>
      if pyStartsWith image_url "data:image" then
        match (pySplit image_url ',')[1]? with
        | some image_data => .ok (.from_image image_data)
        | none => .error "list index out of range"
      else .ok (.from_uri image_url)

/-- The `for content in message["content"]` loop: items converted in order,
the first exception aborting the whole conversion. -/
def convertItems : List ContentItem → Except String (List Part)
  | [] => .ok []
  | item :: rest =>
      match convertItem item with
      | .error e => .error e
      | .ok part =>
          match convertItems rest with
          | .error e => .error e
          | .ok parts => .ok (part :: parts)

/-- The parts built for one message: a list content is converted item by
item, any other content becomes a single text part. -/
def msgParts : MsgContent → Except String (List Part)
  | .parts items => convertItems items
  | .str s => .ok [.from_text s]

/-- `Pipeline.build_conversation_history`. -/
def build_conversation_history : List Message → Except String (List Content)
  | [] => .ok []
  | message :: rest =>
      if message.role = "system" then build_conversation_history rest
      else
        match msgParts message.content with
        | .error e => .error e
        | .ok parts =>
            match build_conversation_history rest with
            | .error e => .error e
            | .ok tail =>
                .ok (⟨if message.role = "user" then "user" else "model", parts⟩ :: tail)

/-- The field renaming loop of `retrieve_relevant_laws`. -/
def formatDocs : List StoreDoc → List RelevantDoc
  | [] => []
  | doc :: rest => ⟨doc.page_content, doc.metadata⟩ :: formatDocs rest

/-- `Pipeline.retrieve_relevant_laws`, parameterised by the outcome of the
external `self.store.similarity_search(query, k)` call. -/
def retrieve_relevant_laws
    (similarity_search : String → Nat → Except String (List StoreDoc))
    (query : String) (k : Nat) : Except String (List RelevantDoc) :=
  match similarity_search query k with
  | .error e => .error e
  | .ok retrieved_docs => .ok (formatDocs retrieved_docs)

/-- The fixed framing header of the synthesized system message. -/
def lawsHeader : String :=
  "以下はユーザーの質問に関連する法令情報です:\n" ++
  "ユーザーからの質問に対して、法令をもとに回答してください。\n" ++
  "この時、参照した法令番号と法令名を明記してください。\n\n"

/-- The three formatted lines appended for one retrieved document. -/
def lawEntry (law : RelevantDoc) : String :=
  "法令名: " ++ law.metadata.law_name ++ "\n" ++
  "法令番号: " ++ law.metadata.law_number ++ "\n" ++
  "法令内容: " ++ law.content ++ "\n\n"

/-- The document lines of the synthesized system message, in order. -/
def lawsBody : List RelevantDoc → String
  | [] => ""
  | law :: rest => lawEntry law ++ lawsBody rest

/-- The full `laws_context` string built when `relevant_docs` is non-empty. -/
def laws_context (relevant_docs : List RelevantDoc) : String :=
  lawsHeader ++ lawsBody relevant_docs

/-- The augmentation step: `if relevant_docs:` synthesize the system message
and `messages.insert(0, ...)`. -/
def augmentMessages (relevant_docs : List RelevantDoc) (messages : List Message) :
    List Message :=
  if relevant_docs.isEmpty then messages
  else ⟨"system", .str (laws_context relevant_docs)⟩ :: messages

/-- `next((msg["content"] for msg in messages if msg["role"] == "system"), None)`. -/
def system_message (messages : List Message) : Option MsgContent :=
  (messages.find? (fun msg => msg.role == "system")).map Message.content

/-- The safety-settings dict built when `USE_PERMISSIVE_SAFETY` is on. -/
def permissive_safety_settings : SafetySettings :=
  [(.HARM_CATEGORY_HATE_SPEECH, .BLOCK_NONE),
   (.HARM_CATEGORY_DANGEROUS_CONTENT, .BLOCK_NONE),
   (.HARM_CATEGORY_SEXUALLY_EXPLICIT, .BLOCK_NONE),
   (.HARM_CATEGORY_HARASSMENT, .BLOCK_NONE)]

/-- Dict lookup in a safety-settings value. -/
def lookupThreshold (cat : HarmCategory) : SafetySettings → Option HarmBlockThreshold
  | [] => none
  | (c, t) :: rest => if c = cat then some t else lookupThreshold cat rest

/-- The `GenerationConfig` built from `body` with the source's defaults. -/
def generation_config_of (body : Body) : GenerationConfig :=
  ⟨body.temperature.getD 0.7, body.top_p.getD 0.9, body.top_k.getD 40,
   body.max_tokens.getD 8192, body.stop.getD []⟩

/-- The safety settings passed to the provider. -/
def safety_settings_of (valves : Valves) (body : Body) : Option SafetySettings :=
  if valves.USE_PERMISSIVE_SAFETY then some permissive_safety_settings
  else body.safety_settings

/-- Steps 2 to 6 of `pipe`: retrieval, augmentation, system-instruction
extraction, conversation conversion (or the title shortcut), config and
safety assembly, producing the request handed to `model.generate_content`. -/
def pipeRequest (valves : Valves)
    (similarity_search : String → Nat → Except String (List StoreDoc))
    (user_message model_id : String) (messages : List Message) (body : Body) :
    Except String GenRequest :=
  match retrieve_relevant_laws similarity_search user_message 3 with
  | .error e => .error e
  | .ok relevant_docs =>
      let messages := augmentMessages relevant_docs messages
      match (if body.title.getD false then
               Except.ok [⟨"user", [Part.from_text user_message]⟩]
             else build_conversation_history messages) with
      | .error e => .error e
      | .ok contents =>
          .ok ⟨model_id, system_message messages, contents,
               generation_config_of body, safety_settings_of valves body,
               body.stream.getD false⟩

/-- The body of `pipe`'s `try` block after the model-id check: build the
request, invoke the provider, normalize the response. A streaming response is
returned as the unconsumed generator (its events are not inspected here). -/
def pipeSteps (valves : Valves)
    (similarity_search : String → Nat → Except String (List StoreDoc))
    (generate_content : GenRequest → Except String ProviderResponse)
    (user_message model_id : String) (messages : List Message) (body : Body) :
    Except String PipeResult :=
  match pipeRequest valves similarity_search user_message model_id messages body with
  | .error e => .error e
  | .ok req =>
      match generate_content req with
      | .error e => .error e
      | .ok response =>
          if body.stream.getD false then .ok (.stream response.chunks)
          else
            match response.text with
            | .error e => .error e
            | .ok text => .ok (.str text)

/-- `Pipeline.pipe`: model-id validation, then the `try` body with every
raised exception `e` converted to `"An error occurred: " + str(e)`. -/
def pipe (valves : Valves)
    (similarity_search : String → Nat → Except String (List StoreDoc))
    (generate_content : GenRequest → Except String ProviderResponse)
    (user_message model_id : String) (messages : List Message) (body : Body) :
    PipeResult :=
  if pyStartsWith model_id "gemini-" then
    match pipeSteps valves similarity_search generate_content
        user_message model_id messages body with
    | .ok r => r
    | .error e => .str ("An error occurred: " ++ e)
  else .str ("Error: Invalid model name format: " ++ model_id)

end Pipeline

/-- Whether an exception escapes to the caller uncaught: never for a string
result; for a streaming result, exactly when draining the returned generator
raises. -/
def escapesUncaught : PipeResult → Bool
  | .str _ => false
  | .stream events =>
      match Pipeline.stream_response events with
      | .done _ => false
      | .raised _ _ => true

/-- Modelled from the spec: the segment of a URI after its first comma
(everything past the first comma), the payload the spec says an inline-image
block carries. Differs from the code's comma-split element 1 when the URI
holds more than one comma. -/
def segmentAfterFirstComma (s : String) : String :=
  joinWith ',' ((pySplit s ',').tail)

/-- Substring containment, used to state that the synthesized system message
mentions each document's fields. -/
def Substr (needle hay : String) : Prop :=
  ∃ a b : String, hay = a ++ needle ++ b

/-- Modelled from the spec's words for conversation conversion: convert the
given messages one by one, preserving order, mapping role "user" to "user"
and every other role to "model" — with no system-dropping of its own (the
spec's "drop every system message" is expressed by composing this with a
filter in claim C7). -/
def specConvertAll : List Message → Except String (List Content)
  | [] => .ok []
  | m :: rest =>
      match Pipeline.msgParts m.content with
      | .error e => .error e
      | .ok parts =>
          match specConvertAll rest with
          | .error e => .error e
          | .ok tail =>
              .ok (⟨if m.role = "user" then "user" else "model", parts⟩ :: tail)


theorem Substr.of_append_left {n hay : String} (x : String) (h : Substr n hay) :
    Substr n (x ++ hay) := by
  obtain ⟨a, b, rfl⟩ := h
  refine ⟨x ++ a, b, ?_⟩
  apply String.ext
  simp [String.data_append, List.append_assoc]

theorem Substr.of_append_right {n hay : String} (x : String) (h : Substr n hay) :
    Substr n (hay ++ x) := by
  obtain ⟨a, b, rfl⟩ := h
  refine ⟨a, b ++ x, ?_⟩
  apply String.ext
  simp [String.data_append, List.append_assoc]

theorem append_ne_append_of_head {a b : String} (x y : String) {c d : Char}
    (ha : a.data.head? = some c) (hb : b.data.head? = some d) (hcd : c ≠ d) :
    a ++ x ≠ b ++ y := by
  intro h
  apply hcd
  have hd := congrArg String.data h
  rw [String.data_append, String.data_append] at hd
  obtain ⟨as, ha2⟩ : ∃ as, a.data = c :: as := by
    cases hA : a.data with
    | nil => rw [hA] at ha; cases ha
    | cons u us => rw [hA] at ha; injection ha with h1; exact ⟨us, by rw [h1]⟩
  obtain ⟨bs, hb2⟩ : ∃ bs, b.data = d :: bs := by
    cases hB : b.data with
    | nil => rw [hB] at hb; cases hb
    | cons u us => rw [hB] at hb; injection hb with h1; exact ⟨us, by rw [h1]⟩
  rw [ha2, hb2] at hd
  simp only [List.cons_append, List.cons.injEq] at hd
  exact hd.1

/-- Claim C2: for every model_id that does not start with the accepted prefix
"gemini-", `pipe` returns exactly "Error: Invalid model name format: " ++
model_id, whatever the retrieval and provider oracles would do — so neither
the retrieval call nor the provider call can influence the result, i.e. no
side effect occurs before the check. -/
theorem claim_C2 (valves : Valves)
    (similarity_search : String → Nat → Except String (List StoreDoc))
    (generate_content : GenRequest → Except String ProviderResponse)
    (user_message model_id : String) (messages : List Message) (body : Body)
    (h : pyStartsWith model_id "gemini-" = false) :
    Pipeline.pipe valves similarity_search generate_content
        user_message model_id messages body
      = .str ("Error: Invalid model name format: " ++ model_id) := by
  simp [Pipeline.pipe, h]

/-- Witness for C2 at the spec's example: `pipe` with model id "gpt-4"
returns "Error: Invalid model name format: gpt-4", even with oracles that
would fail if consulted. -/
theorem claim_C2_witness :
    Pipeline.pipe ⟨"", "", false⟩ (fun _ _ => .error "never")
        (fun _ => .error "never") "m" "gpt-4" []
        ⟨none, none, none, none, none, none, none, none⟩
      = .str ("Error: Invalid model name format: " ++ "gpt-4") :=
  claim_C2 _ _ _ _ _ _ _ (by decide)

/-- Claim C10: every model_id starting with "gemini-" passes validation:
`pipe` proceeds to the retrieval step (shown by returning the converted
retrieval failure when retrieval raises), and never returns the
InvalidModel error string; `pipe` takes no catalog argument at all, and in
particular the hypothesis does not require model_id to be listed in
`Pipeline.pipelines`. -/
theorem claim_C10 (valves : Valves)
    (generate_content : GenRequest → Except String ProviderResponse)
    (user_message model_id : String) (messages : List Message) (body : Body)
    (e : String) (h : pyStartsWith model_id "gemini-" = true) :
    Pipeline.pipe valves (fun _ _ => .error e) generate_content
        user_message model_id messages body
      = .str ("An error occurred: " ++ e) ∧
    ∀ s : String,
      Pipeline.pipe valves (fun _ _ => .error e) generate_content
          user_message model_id messages body
        ≠ .str ("Error: Invalid model name format: " ++ s) := by
  have hmain : Pipeline.pipe valves (fun _ _ => .error e) generate_content
      user_message model_id messages body
      = .str ("An error occurred: " ++ e) := by
    simp [Pipeline.pipe, h, Pipeline.pipeSteps, Pipeline.pipeRequest,
      Pipeline.retrieve_relevant_laws]
  refine ⟨hmain, fun s hs => ?_⟩
  rw [hmain] at hs
  injection hs with hstr
  exact append_ne_append_of_head e s (by decide) (by decide)
    (by decide : ('A' : Char) ≠ 'E') hstr

/-- Witness for C10: "gemini-unlisted" is absent from the advertised catalog,
yet validation passes and the retrieval failure is what is reported. -/
theorem claim_C10_witness :
    (¬ ("gemini-unlisted" ∈ Pipeline.pipelines.map Prod.fst)) ∧
    Pipeline.pipe ⟨"", "", false⟩ (fun _ _ => .error "down")
        (fun _ => .ok ⟨[], .ok ""⟩) "q" "gemini-unlisted" []
        ⟨none, none, none, none, none, none, none, none⟩
      = .str ("An error occurred: " ++ "down") :=
  ⟨by decide,
   (claim_C10 ⟨"", "", false⟩ (fun _ => .ok ⟨[], .ok ""⟩) "q" "gemini-unlisted"
     [] ⟨none, none, none, none, none, none, none, none⟩ "down" (by decide)).1⟩

/-- Counterexample to Claim C1: a provider failure raised while the returned
streaming sequence is being consumed is NOT caught by `pipe`. On this input
`pipe` returns the generator over the event list `[error "boom"]`, and
draining that generator raises "boom" to the caller instead of producing a
descriptive error string. -/
theorem claim_C1_counterexample :
    Pipeline.pipe ⟨"", "", false⟩ (fun _ _ => .ok [])
        (fun _ => .ok ⟨[Except.error "boom"], .ok ""⟩) "hi" "gemini-1.5-pro-001"
        [] ⟨some true, none, none, none, none, none, none, none⟩
      = .stream [Except.error "boom"] ∧
    Pipeline.stream_response [Except.error "boom"] = .raised [] "boom" ∧
    escapesUncaught (Pipeline.pipe ⟨"", "", false⟩ (fun _ _ => .ok [])
        (fun _ => .ok ⟨[Except.error "boom"], .ok ""⟩) "hi" "gemini-1.5-pro-001"
        [] ⟨some true, none, none, none, none, none, none, none⟩) = true := by
  refine ⟨by decide, by decide, by decide⟩

/-- Claim C1 as amended: every failure raised inside `pipe`'s try block —
any request-assembly failure (retrieval or conversation conversion, i.e.
every `pipeRequest` error), provider invocation, and (non-streaming)
response-text access — is caught and converted to "An error occurred: " ++ e;
but for a streaming call `pipe` returns the provider's raw event sequence
unwrapped, so a failure occurring while that sequence is consumed is not
converted (see the counterexample). -/
theorem claim_C1_amended (valves : Valves)
    (similarity_search : String → Nat → Except String (List StoreDoc))
    (generate_content : GenRequest → Except String ProviderResponse)
    (user_message model_id : String) (messages : List Message) (body : Body)
    (h : pyStartsWith model_id "gemini-" = true) :
    (∀ e, Pipeline.pipeRequest valves similarity_search user_message model_id
           messages body = .error e →
       Pipeline.pipe valves similarity_search generate_content
           user_message model_id messages body
         = .str ("An error occurred: " ++ e)) ∧
    (∀ e, similarity_search user_message 3 = .error e →
       Pipeline.pipe valves similarity_search generate_content
           user_message model_id messages body
         = .str ("An error occurred: " ++ e)) ∧
    (∀ req e,
       Pipeline.pipeRequest valves similarity_search user_message model_id
           messages body = .ok req →
       generate_content req = .error e →
       Pipeline.pipe valves similarity_search generate_content
           user_message model_id messages body
         = .str ("An error occurred: " ++ e)) ∧
    (∀ req response e,
       Pipeline.pipeRequest valves similarity_search user_message model_id
           messages body = .ok req →
       generate_content req = .ok response →
       body.stream.getD false = false →
       response.text = .error e →
       Pipeline.pipe valves similarity_search generate_content
           user_message model_id messages body
         = .str ("An error occurred: " ++ e)) ∧
    (∀ req response,
       Pipeline.pipeRequest valves similarity_search user_message model_id
           messages body = .ok req →
       generate_content req = .ok response →
       body.stream.getD false = true →
       Pipeline.pipe valves similarity_search generate_content
           user_message model_id messages body
         = .stream response.chunks) := by
  refine ⟨fun e hreqe => ?_, fun e hss => ?_, fun req e hreq hgc => ?_,
    fun req response e hreq hgc hstream htext => ?_,
    fun req response hreq hgc hstream => ?_⟩
  · simp [Pipeline.pipe, h, Pipeline.pipeSteps, hreqe]
  · simp [Pipeline.pipe, h, Pipeline.pipeSteps, Pipeline.pipeRequest,
      Pipeline.retrieve_relevant_laws, hss]
  · simp [Pipeline.pipe, h, Pipeline.pipeSteps, hreq, hgc]
  · simp [Pipeline.pipe, h, Pipeline.pipeSteps, hreq, hgc, hstream, htext]
  · simp [Pipeline.pipe, h, Pipeline.pipeSteps, hreq, hgc, hstream]

/-- Witness for the amended C1: a retrieval failure "down" is converted to
the descriptive string, and so is a conversation-conversion failure (the
index error from a comma-less "data:image..." reference). -/
theorem claim_C1_amended_witness :
    Pipeline.pipe ⟨"", "", false⟩ (fun _ _ => .error "down")
        (fun _ => .error "never") "q" "gemini-1.5-pro-001" []
        ⟨none, none, none, none, none, none, none, none⟩
      = .str ("An error occurred: " ++ "down") ∧
    Pipeline.pipe ⟨"", "", false⟩ (fun _ _ => .ok [])
        (fun _ => .error "never") "q" "gemini-1.5-pro-001"
        [⟨"user", .parts [.image_url "data:imageX"]⟩]
        ⟨none, none, none, none, none, none, none, none⟩
      = .str ("An error occurred: " ++ "list index out of range") :=
  ⟨(claim_C1_amended ⟨"", "", false⟩ (fun _ _ => .error "down")
     (fun _ => .error "never") "q" "gemini-1.5-pro-001" []
     ⟨none, none, none, none, none, none, none, none⟩ (by decide)).2.1 "down" rfl,
   (claim_C1_amended ⟨"", "", false⟩ (fun _ _ => .ok [])
     (fun _ => .error "never") "q" "gemini-1.5-pro-001"
     [⟨"user", .parts [.image_url "data:imageX"]⟩]
     ⟨none, none, none, none, none, none, none, none⟩ (by decide)).1
     "list index out of range" (by decide)⟩

/-- The generator `stream_response` applied to a normally terminating chunk
sequence yields exactly the non-empty chunk texts, in order, and ends. -/
theorem stream_response_of_ok (texts : List String) :
    Pipeline.stream_response (texts.map Except.ok)
      = .done (texts.filter (fun t => !(t == ""))) := by
  induction texts with
  | nil => rfl
  | cons t rest ih =>
      by_cases ht : t = ""
      · subst ht
        simpa [Pipeline.stream_response, List.filter_cons] using ih
      · have hbeq : (t == "") = false := by
          simpa using ht
        simp [Pipeline.stream_response, List.filter_cons, ht, hbeq, ih,
          StreamOutcome.push]

/-- Claim C3: for a streaming call whose provider chunk sequence terminates
normally with the given texts, `pipe` returns the generator over exactly
that sequence, and draining it yields exactly the non-empty texts in
provider-emission order, then ends; empty-text chunks are dropped, not
yielded as empty strings. -/
theorem claim_C3 (valves : Valves)
    (similarity_search : String → Nat → Except String (List StoreDoc))
    (generate_content : GenRequest → Except String ProviderResponse)
    (user_message model_id : String) (messages : List Message) (body : Body)
    (req : GenRequest) (response : ProviderResponse) (texts : List String)
    (h : pyStartsWith model_id "gemini-" = true)
    (hreq : Pipeline.pipeRequest valves similarity_search user_message model_id
        messages body = .ok req)
    (hgen : generate_content req = .ok response)
    (hstream : body.stream.getD false = true)
    (hchunks : response.chunks = texts.map Except.ok) :
    Pipeline.pipe valves similarity_search generate_content
        user_message model_id messages body
      = .stream (texts.map Except.ok) ∧
    Pipeline.stream_response (texts.map Except.ok)
      = .done (texts.filter (fun t => !(t == ""))) := by
  constructor
  · rw [← hchunks]
    simp [Pipeline.pipe, h, Pipeline.pipeSteps, hreq, hgen, hstream]
  · exact stream_response_of_ok texts

/-- Witness for C3: provider emits "Hello", "", "world"; the returned
generator is over exactly those chunks and yields "Hello", "world". -/
theorem claim_C3_witness :
    Pipeline.pipe ⟨"", "", false⟩ (fun _ _ => .ok [])
        (fun _ => .ok ⟨[Except.ok "Hello", Except.ok "", Except.ok "world"], .ok ""⟩)
        "q" "gemini-1.5-pro-001" []
        ⟨some true, none, none, none, none, none, none, none⟩
      = .stream [Except.ok "Hello", Except.ok "", Except.ok "world"] ∧
    Pipeline.stream_response [Except.ok "Hello", Except.ok "", Except.ok "world"]
      = .done (["Hello", "", "world"].filter (fun t => !(t == ""))) := by
  obtain ⟨req, hreq⟩ : ∃ req, Pipeline.pipeRequest ⟨"", "", false⟩
      (fun _ _ => .ok []) "q" "gemini-1.5-pro-001" []
      ⟨some true, none, none, none, none, none, none, none⟩ = .ok req := ⟨_, rfl⟩
  exact claim_C3 ⟨"", "", false⟩ (fun _ _ => .ok [])
    (fun _ => .ok ⟨[Except.ok "Hello", Except.ok "", Except.ok "world"], .ok ""⟩)
    "q" "gemini-1.5-pro-001" []
    ⟨some true, none, none, none, none, none, none, none⟩ req _
    ["Hello", "", "world"] (by decide) hreq rfl rfl rfl

/-- Counterexample to Claim C4: for the data URI
"data:image/svg+xml,a,b" (a data-URI image reference containing two commas)
the conversion produces an inline-image block with payload "a" — element 1 of
the comma split — whereas the segment of the URI after the first comma is
"a,b"; the payload does not equal that segment. -/
theorem claim_C4_counterexample :
    Pipeline.build_conversation_history
        [⟨"user", .parts [.image_url "data:image/svg+xml,a,b"]⟩]
      = .ok [⟨"user", [.from_image "a"]⟩] ∧
    segmentAfterFirstComma "data:image/svg+xml,a,b" = "a,b" ∧
    ¬ ("a" : String) = "a,b" := by
  refine ⟨by decide, by decide, by decide⟩

/-- Claim C4 as amended: for an image part whose reference starts with
"data:image", the output is an inline-image block whose payload is element 1
of splitting the reference on commas — the segment between the first and the
second comma, which equals the segment after the first comma exactly when the
reference contains a single comma (the well-formed base64 case); if such a
reference contains no comma the conversion raises an index error instead of
producing a block; a reference not starting with "data:image" produces a
by-reference block carrying the original URI unchanged. -/
theorem claim_C4_amended (url : String) :
    (pyStartsWith url "data:image" = true → ∀ d, (pySplit url ',')[1]? = some d →
       Pipeline.build_conversation_history [⟨"user", .parts [.image_url url]⟩]
         = .ok [⟨"user", [.from_image d]⟩]) ∧
    (pyStartsWith url "data:image" = true → (pySplit url ',')[1]? = none →
       Pipeline.build_conversation_history [⟨"user", .parts [.image_url url]⟩]
         = .error "list index out of range") ∧
    (pyStartsWith url "data:image" = false →
       Pipeline.build_conversation_history [⟨"user", .parts [.image_url url]⟩]
         = .ok [⟨"user", [.from_uri url]⟩]) ∧
    (∀ x y : String, pySplit url ',' = [x, y] →
       (pySplit url ',')[1]? = some (segmentAfterFirstComma url)) := by
  refine ⟨fun h d hd => ?_, fun h hd => ?_, fun h => ?_, fun x y hxy => ?_⟩
  · simp [Pipeline.build_conversation_history, Pipeline.msgParts,
      Pipeline.convertItems, Pipeline.convertItem, h, hd]
  · simp [Pipeline.build_conversation_history, Pipeline.msgParts,
      Pipeline.convertItems, Pipeline.convertItem, h, hd]
  · simp [Pipeline.build_conversation_history, Pipeline.msgParts,
      Pipeline.convertItems, Pipeline.convertItem, h]
  · rw [segmentAfterFirstComma, hxy]
    simp [joinWith]

/-- Witness for the amended C4: a well-formed base64 data URI yields an
inline block with the base64 payload, and a plain https URL passes through
by reference. -/
theorem claim_C4_amended_witness :
    Pipeline.build_conversation_history
        [⟨"user", .parts [.image_url "data:image/png;base64,QUJD"]⟩]
      = .ok [⟨"user", [.from_image "QUJD"]⟩] ∧
    Pipeline.build_conversation_history
        [⟨"user", .parts [.image_url "https://x/y.png"]⟩]
      = .ok [⟨"user", [.from_uri "https://x/y.png"]⟩] :=
  ⟨(claim_C4_amended "data:image/png;base64,QUJD").1 (by decide) "QUJD" (by decide),
   (claim_C4_amended "https://x/y.png").2.2.1 (by decide)⟩

theorem substr_name_lawEntry (law : RelevantDoc) :
    Substr law.metadata.law_name (Pipeline.lawEntry law) := by
  refine ⟨"法令名: ", "\n" ++ "法令番号: " ++ law.metadata.law_number ++ "\n" ++
    "法令内容: " ++ law.content ++ "\n\n", ?_⟩
  apply String.ext
  simp [Pipeline.lawEntry, String.data_append, List.append_assoc]

theorem substr_number_lawEntry (law : RelevantDoc) :
    Substr law.metadata.law_number (Pipeline.lawEntry law) := by
  refine ⟨"法令名: " ++ law.metadata.law_name ++ "\n" ++ "法令番号: ",
    "\n" ++ "法令内容: " ++ law.content ++ "\n\n", ?_⟩
  apply String.ext
  simp [Pipeline.lawEntry, String.data_append, List.append_assoc]

theorem substr_content_lawEntry (law : RelevantDoc) :
    Substr law.content (Pipeline.lawEntry law) := by
  refine ⟨"法令名: " ++ law.metadata.law_name ++ "\n" ++ "法令番号: " ++
    law.metadata.law_number ++ "\n" ++ "法令内容: ", "\n\n", ?_⟩
  apply String.ext
  simp [Pipeline.lawEntry, String.data_append, List.append_assoc]

theorem substr_lawsBody {n : String} {law : RelevantDoc} {docs : List RelevantDoc}
    (hmem : law ∈ docs) (hn : Substr n (Pipeline.lawEntry law)) :
    Substr n (Pipeline.lawsBody docs) := by
  induction docs with
  | nil => cases hmem
  | cons d rest ih =>
      rcases List.mem_cons.mp hmem with h | h
      · subst h
        exact Substr.of_append_right _ hn
      · exact Substr.of_append_left _ (ih h)

theorem substr_laws_context {n : String} {law : RelevantDoc}
    {docs : List RelevantDoc} (hmem : law ∈ docs)
    (hn : Substr n (Pipeline.lawEntry law)) :
    Substr n (Pipeline.laws_context docs) :=
  Substr.of_append_left _ (substr_lawsBody hmem hn)

/-- Claim C5: when retrieval produced at least one document, exactly one
system message is synthesized and placed at position 0 of the message list
(ahead of any pre-existing system message), its content mentions every
document's law_name, law_number and content, it is the system message
selected as system instruction, and the request assembled by `pipe` converts
exactly that sys-prepended list. -/
theorem claim_C5 (relevant_docs : List RelevantDoc) (messages : List Message)
    (h : relevant_docs ≠ []) :
    Pipeline.augmentMessages relevant_docs messages
      = ⟨"system", .str (Pipeline.laws_context relevant_docs)⟩ :: messages ∧
    Pipeline.system_message (Pipeline.augmentMessages relevant_docs messages)
      = some (.str (Pipeline.laws_context relevant_docs)) ∧
    (∀ law ∈ relevant_docs,
       Substr law.metadata.law_name (Pipeline.laws_context relevant_docs) ∧
       Substr law.metadata.law_number (Pipeline.laws_context relevant_docs) ∧
       Substr law.content (Pipeline.laws_context relevant_docs)) ∧
    (∀ (valves : Valves)
       (similarity_search : String → Nat → Except String (List StoreDoc))
       (user_message model_id : String) (body : Body) (sdocs : List StoreDoc),
       similarity_search user_message 3 = .ok sdocs →
       Pipeline.formatDocs sdocs = relevant_docs →
       body.title.getD false = false →
       Pipeline.pipeRequest valves similarity_search user_message model_id
           messages body
         = match Pipeline.build_conversation_history
             (⟨"system", .str (Pipeline.laws_context relevant_docs)⟩ :: messages) with
           | .error e => .error e
           | .ok contents =>
               .ok ⟨model_id, some (.str (Pipeline.laws_context relevant_docs)),
                 contents, Pipeline.generation_config_of body,
                 Pipeline.safety_settings_of valves body,
                 body.stream.getD false⟩) := by
  have hne : relevant_docs.isEmpty = false := by
    cases relevant_docs with
    | nil => exact absurd rfl h
    | cons a b => rfl
  have h1 : Pipeline.augmentMessages relevant_docs messages
      = ⟨"system", .str (Pipeline.laws_context relevant_docs)⟩ :: messages := by
    simp [Pipeline.augmentMessages, hne]
  refine ⟨h1, ?_, ?_, ?_⟩
  · rw [h1]
    simp [Pipeline.system_message, List.find?]
  · intro law hmem
    exact ⟨substr_laws_context hmem (substr_name_lawEntry law),
      substr_laws_context hmem (substr_number_lawEntry law),
      substr_laws_context hmem (substr_content_lawEntry law)⟩
  · intro valves similarity_search user_message model_id body sdocs hss hfmt htitle
    simp only [Pipeline.pipeRequest, Pipeline.retrieve_relevant_laws, hss, hfmt,
      htitle, h1, Bool.false_eq_true, if_false]
    simp [Pipeline.system_message, List.find?]

/-- Witness for C5 at one retrieved document: the synthesized system message
sits alone in front and mentions the document's name, number and content. -/
theorem claim_C5_witness :
    Pipeline.augmentMessages [⟨"c1", ⟨"n1", "b1"⟩⟩] []
      = [⟨"system", .str (Pipeline.laws_context [⟨"c1", ⟨"n1", "b1"⟩⟩])⟩] ∧
    Substr "n1" (Pipeline.laws_context [⟨"c1", ⟨"n1", "b1"⟩⟩]) ∧
    Substr "b1" (Pipeline.laws_context [⟨"c1", ⟨"n1", "b1"⟩⟩]) ∧
    Substr "c1" (Pipeline.laws_context [⟨"c1", ⟨"n1", "b1"⟩⟩]) := by
  have hc := claim_C5 [⟨"c1", ⟨"n1", "b1"⟩⟩] [] (by decide)
  have hs := hc.2.2.1 ⟨"c1", ⟨"n1", "b1"⟩⟩ (by simp)
  exact ⟨hc.1, hs.1, hs.2.1, hs.2.2⟩

/-- Claim C6: when retrieval returns zero documents the message list is left
unmodified — nothing is synthesized or inserted — and system-instruction
extraction selects the first pre-existing system message (or none) exactly
as if no augmentation step had run; the request assembled by `pipe` converts
the original list. -/
theorem claim_C6 (messages : List Message) :
    Pipeline.augmentMessages [] messages = messages ∧
    Pipeline.system_message (Pipeline.augmentMessages [] messages)
      = Pipeline.system_message messages ∧
    (∀ (valves : Valves)
       (similarity_search : String → Nat → Except String (List StoreDoc))
       (user_message model_id : String) (body : Body),
       similarity_search user_message 3 = .ok [] →
       body.title.getD false = false →
       Pipeline.pipeRequest valves similarity_search user_message model_id
           messages body
         = match Pipeline.build_conversation_history messages with
           | .error e => .error e
           | .ok contents =>
               .ok ⟨model_id, Pipeline.system_message messages, contents,
                 Pipeline.generation_config_of body,
                 Pipeline.safety_settings_of valves body,
                 body.stream.getD false⟩) := by
  refine ⟨rfl, rfl, ?_⟩
  intro valves similarity_search user_message model_id body hss htitle
  simp [Pipeline.pipeRequest, Pipeline.retrieve_relevant_laws, hss,
    Pipeline.formatDocs, Pipeline.augmentMessages, htitle]

/-- Witness for C6: with an empty retrieval result and a pre-existing system
message, the request keeps the original history and its system message. -/
theorem claim_C6_witness :
    Pipeline.pipeRequest ⟨"", "", false⟩ (fun _ _ => .ok []) "q"
        "gemini-1.5-pro-001" [⟨"system", .str "pre"⟩, ⟨"user", .str "hi"⟩]
        ⟨none, none, none, none, none, none, none, none⟩
      = .ok ⟨"gemini-1.5-pro-001", some (.str "pre"),
          [⟨"user", [.from_text "hi"]⟩],
          Pipeline.generation_config_of ⟨none, none, none, none, none, none, none, none⟩,
          Pipeline.safety_settings_of ⟨"", "", false⟩
            ⟨none, none, none, none, none, none, none, none⟩,
          false⟩ :=
  (claim_C6 [⟨"system", .str "pre"⟩, ⟨"user", .str "hi"⟩]).2.2 ⟨"", "", false⟩
    (fun _ _ => .ok []) "q" "gemini-1.5-pro-001"
    ⟨none, none, none, none, none, none, none, none⟩ rfl rfl

/-- Claim C7: conversion drops every message whose role is "system" and
preserves the relative order of all others — it equals the order-preserving
per-message conversion applied to the system-filtered list — maps role
"user" to provider role "user" and every other non-system role to provider
role "model", and plain-text content becomes a single text part. -/
theorem claim_C7 (messages : List Message) :
    Pipeline.build_conversation_history messages
      = specConvertAll (messages.filter (fun m => !(m.role == "system"))) ∧
    (∀ role s : String, role ≠ "system" →
       Pipeline.build_conversation_history [⟨role, .str s⟩]
         = .ok [⟨if role = "user" then "user" else "model", [.from_text s]⟩]) := by
  constructor
  · induction messages with
    | nil => rfl
    | cons m rest ih =>
        by_cases hsys : m.role = "system"
        · simpa [Pipeline.build_conversation_history, hsys, List.filter_cons]
            using ih
        · have hbeq : (m.role == "system") = false := by simpa using hsys
          simp [Pipeline.build_conversation_history, hsys, hbeq,
            List.filter_cons, specConvertAll, ih]
  · intro role s hrole
    simp [Pipeline.build_conversation_history, Pipeline.msgParts, hrole]

/-- Witness for C7: a history with a system message, a user message and an
assistant message converts through the filtered spec conversion, and an
assistant plain-text message becomes one "model" block with one text part. -/
theorem claim_C7_witness :
    Pipeline.build_conversation_history
        [⟨"system", .str "sys"⟩, ⟨"user", .str "hi"⟩, ⟨"assistant", .str "yo"⟩]
      = specConvertAll (([⟨"system", .str "sys"⟩, ⟨"user", .str "hi"⟩,
          ⟨"assistant", .str "yo"⟩] : List Message).filter
            (fun m => !(m.role == "system"))) ∧
    Pipeline.build_conversation_history [⟨"assistant", .str "yo"⟩]
      = .ok [⟨"model", [.from_text "yo"]⟩] :=
  ⟨(claim_C7 [⟨"system", .str "sys"⟩, ⟨"user", .str "hi"⟩,
      ⟨"assistant", .str "yo"⟩]).1,
   (claim_C7 []).2 "assistant" "yo" (by decide)⟩

/-- Claim C8: with USE_PERMISSIVE_SAFETY enabled, the safety settings handed
to the provider map all four harm categories to BLOCK_NONE, whatever
`body.safety_settings` the caller supplied; with it disabled, the caller's
safety overrides (possibly none) pass through unchanged; and the request
`pipe` assembles carries exactly these settings. -/
theorem claim_C8 (valves : Valves) (body : Body) :
    (valves.USE_PERMISSIVE_SAFETY = true →
       Pipeline.safety_settings_of valves body
         = some Pipeline.permissive_safety_settings ∧
       ∀ cat : HarmCategory,
         Pipeline.lookupThreshold cat Pipeline.permissive_safety_settings
           = some .BLOCK_NONE) ∧
    (valves.USE_PERMISSIVE_SAFETY = false →
       Pipeline.safety_settings_of valves body = body.safety_settings) ∧
    (∀ (similarity_search : String → Nat → Except String (List StoreDoc))
       (user_message model_id : String) (messages : List Message)
       (req : GenRequest),
       Pipeline.pipeRequest valves similarity_search user_message model_id
           messages body = .ok req →
       req.safety_settings = Pipeline.safety_settings_of valves body) := by
  refine ⟨fun hp => ⟨by simp [Pipeline.safety_settings_of, hp], fun cat => ?_⟩,
    fun hp => by simp [Pipeline.safety_settings_of, hp], ?_⟩
  · cases cat <;> rfl
  · intro similarity_search user_message model_id messages req h
    simp only [Pipeline.pipeRequest] at h
    split at h
    · exact absurd h (by simp)
    · split at h
      · exact absurd h (by simp)
      · injection h with h2
        rw [← h2]

/-- Witness for C8: with the flag on, all four categories are BLOCK_NONE
despite a caller override; with it off, the override passes through; and a
request built by `pipe` carries the settings. -/
theorem claim_C8_witness :
    (Pipeline.safety_settings_of ⟨"", "", true⟩
        ⟨none, none, none, none, none, none, none,
          some [(.HARM_CATEGORY_HATE_SPEECH, .BLOCK_LOW_AND_ABOVE)]⟩
      = some Pipeline.permissive_safety_settings) ∧
    Pipeline.lookupThreshold .HARM_CATEGORY_HARASSMENT
        Pipeline.permissive_safety_settings = some .BLOCK_NONE ∧
    Pipeline.safety_settings_of ⟨"", "", false⟩
        ⟨none, none, none, none, none, none, none,
          some [(.HARM_CATEGORY_HATE_SPEECH, .BLOCK_LOW_AND_ABOVE)]⟩
      = some [(.HARM_CATEGORY_HATE_SPEECH, .BLOCK_LOW_AND_ABOVE)] := by
  refine ⟨?_, ?_, ?_⟩
  · exact ((claim_C8 ⟨"", "", true⟩ ⟨none, none, none, none, none, none, none,
      some [(.HARM_CATEGORY_HATE_SPEECH, .BLOCK_LOW_AND_ABOVE)]⟩).1 rfl).1
  · exact ((claim_C8 ⟨"", "", true⟩ ⟨none, none, none, none, none, none, none,
      some [(.HARM_CATEGORY_HATE_SPEECH, .BLOCK_LOW_AND_ABOVE)]⟩).1 rfl).2
      .HARM_CATEGORY_HARASSMENT
  · exact (claim_C8 ⟨"", "", false⟩ ⟨none, none, none, none, none, none, none,
      some [(.HARM_CATEGORY_HATE_SPEECH, .BLOCK_LOW_AND_ABOVE)]⟩).2.1 rfl

/-- The renaming loop of `retrieve_relevant_laws` equals a field-renaming
map. -/
theorem formatDocs_eq_map (docs : List StoreDoc) :
    Pipeline.formatDocs docs
      = docs.map (fun doc => ⟨doc.page_content, doc.metadata⟩) := by
  induction docs with
  | nil => rfl
  | cons d rest ih => simp [Pipeline.formatDocs, ih]

/-- Claim C9: `retrieve_relevant_laws` is a pure pass-through of the index
result with fields renamed: on a successful index reply it returns exactly
the renamed documents, preserving number and order; zero matches produce the
empty sequence (no failure); and the length never exceeds k whenever the
index honoured k. -/
theorem claim_C9
    (similarity_search : String → Nat → Except String (List StoreDoc))
    (query : String) (k : Nat) (docs : List StoreDoc)
    (h : similarity_search query k = .ok docs) :
    Pipeline.retrieve_relevant_laws similarity_search query k
      = .ok (Pipeline.formatDocs docs) ∧
    Pipeline.formatDocs docs
      = docs.map (fun doc => ⟨doc.page_content, doc.metadata⟩) ∧
    (Pipeline.formatDocs docs).length = docs.length ∧
    (docs = [] →
       Pipeline.retrieve_relevant_laws similarity_search query k = .ok []) ∧
    (docs.length ≤ k → (Pipeline.formatDocs docs).length ≤ k) := by
  have hlen : (Pipeline.formatDocs docs).length = docs.length := by
    rw [formatDocs_eq_map, List.length_map]
  refine ⟨by simp [Pipeline.retrieve_relevant_laws, h], formatDocs_eq_map docs,
    hlen, fun hnil => ?_, fun hk => hlen ▸ hk⟩
  subst hnil
  simp [Pipeline.retrieve_relevant_laws, h, Pipeline.formatDocs]

/-- Witness for C9: a one-document index reply is passed through renamed;
an empty reply gives the empty list. -/
theorem claim_C9_witness :
    Pipeline.retrieve_relevant_laws (fun _ _ => .ok [⟨"c", ⟨"n", "b"⟩⟩]) "q" 3
      = .ok [⟨"c", ⟨"n", "b"⟩⟩] ∧
    Pipeline.retrieve_relevant_laws (fun _ _ => .ok []) "q" 3 = .ok [] :=
  ⟨(claim_C9 (fun _ _ => .ok [⟨"c", ⟨"n", "b"⟩⟩]) "q" 3 [⟨"c", ⟨"n", "b"⟩⟩]
      rfl).1,
   (claim_C9 (fun _ _ => .ok []) "q" 3 [] rfl).2.2.2.1 rfl⟩

end VertexManifold
